import Mathlib

set_option maxRecDepth 8192

/-!
Verification of the HipChat execution module (`salt/modules/hipchat.py`).

The module is embedded shallowly: Python values become the inductive `Value`,
Python dicts become ordered association lists, the HTTP transport becomes an
explicit oracle function, raised exceptions become the `Except` error channel,
and the requests the module attempts are collected in a trace so that claims
about "no network call" and about captured request bodies can be stated.
-/

namespace Hipchat

/-- Python values as they occur in this module: JSON scalars/containers. -/
inductive Value where
  | null
  | bool (b : Bool)
  | int (n : Int)
  | str (s : String)
  | arr (xs : List Value)
  | obj (kvs : List (String × Value))
  deriving Repr

/-- Python truthiness (`if v:`) for the values above. -/
def Value.truthy : Value → Bool
  | .null => false
  | .bool b => b
  | .int n => n != 0
  | .str s => s != ""
  | .arr xs => !xs.isEmpty
  | .obj kvs => !kvs.isEmpty

/-- Truthiness of an optional string argument (`if not api_key:`):
`None` and the empty string are falsy. -/
def optTruthy : Option String → Bool
  | none => false
  | some s => s != ""

/-- `str()` rendering used for `None` interpolation (`'Bearer ' + str-format`). -/
def optStr : Option String → String
  | none => "None"
  | some s => s

/-- `dict.get(k)`: first (only, since keys are unique) binding of `k`. -/
def dget {α : Type} : List (String × α) → String → Option α
  | [], _ => none
  | (k', v) :: rest, k => if k' = k then some v else dget rest k

/-- `d[k] = v` on a Python dict: replace in place when the key exists
(insertion order kept), append otherwise. -/
def dset (m : List (String × Value)) (k : String) (v : Value) : List (String × Value) :=
  if m.any (fun p => p.1 == k) then
    m.map (fun p => if p.1 == k then (k, v) else p)
  else
    m ++ [(k, v)]

/-- Truthiness of `d.get(k)` (`if data.get('notify'):`): absent → `None` → falsy. -/
def getTruthy (m : List (String × Value)) (k : String) : Bool :=
  match dget m k with
  | some v => v.truthy
  | none => false

/-- One hex digit, for JSON control-character escapes. -/
def hexDigit (n : Nat) : Char :=
  if n < 10 then Char.ofNat (48 + n) else Char.ofNat (87 + n)

/-- `json.dumps` escaping of one character (ASCII escapes used by this module). -/
def jsonEscapeChar (c : Char) : String :=
  if c = '\"' then "\\\""
  else if c = '\\' then "\\\\"
  else if c = '\n' then "\\n"
  else if c = '\t' then "\\t"
  else if c = '\r' then "\\r"
  else if c = '\x08' then "\\b"
  else if c = '\x0c' then "\\f"
  else if c.toNat < 32 then
    "\\u00" ++ String.singleton (hexDigit (c.toNat / 16)) ++ String.singleton (hexDigit (c.toNat % 16))
  else String.singleton c

def jsonEscape (s : String) : String :=
  String.join (s.data.map jsonEscapeChar)

mutual
/-- `json.dumps` with default separators (`, ` and `: `), as the v2 branch uses it. -/
def Value.dumps : Value → String
  | .null => "null"
  | .bool true => "true"
  | .bool false => "false"
  | .int n => toString n
  | .str s => "\"" ++ jsonEscape s ++ "\""
  | .arr xs => "[" ++ Value.dumpsList xs ++ "]"
  | .obj kvs => "\x7b" ++ Value.dumpsPairs kvs ++ "\x7d"

def Value.dumpsList : List Value → String
  | [] => ""
  | [v] => v.dumps
  | v :: w :: rest => v.dumps ++ ", " ++ Value.dumpsList (w :: rest)

def Value.dumpsPairs : List (String × Value) → String
  | [] => ""
  | [(k, v)] => "\"" ++ jsonEscape k ++ "\": " ++ v.dumps
  | (k, v) :: p :: rest =>
      "\"" ++ jsonEscape k ++ "\": " ++ v.dumps ++ ", " ++ Value.dumpsPairs (p :: rest)
end

/-- `json.dumps(data)` on the dict the v2 branch serializes. -/
def jsonDumps (kvs : List (String × Value)) : String :=
  Value.dumps (.obj kvs)

/-- `str()` of a `room_id` value for path interpolation. The module only ever
receives scalar room ids; containers (which this module never interpolates)
are rendered by their JSON form. -/
def Value.pyStr : Value → String
  | .null => "None"
  | .bool true => "True"
  | .bool false => "False"
  | .int n => toString n
  | .str s => s
  | .arr xs => Value.dumps (.arr xs)
  | .obj kvs => Value.dumps (.obj kvs)

/-- `urlparse.urljoin` for the relative references this module builds:
a path segment appended to a base that either is the bare host or ends in `/`. -/
def url_join (base url : String) : String :=
  if base.data.getLast? = some '/' then base ++ url else base ++ "/" ++ url

/-- Exceptions this module can raise to its caller. -/
inductive PyExc where
  | typeError
  | attributeError
  | valueError
  | keyError
  deriving Repr, DecidableEq

/-- The body handed to `requests.request`: a form dict under v1, the
`json.dumps` string under v2. -/
inductive RequestBody where
  | form (kvs : List (String × Value))
  | raw (s : String)
  deriving Repr

/-- One HTTP request as `requests.request` receives it. `params` values are
optional because `auth_token` can be a resolved `None`. -/
structure Request where
  method : String
  url : String
  headers : List (String × String)
  params : List (String × Option String)
  body : RequestBody
  deriving Repr

/-- What `result.json()` yields: a parsed value, or a `ValueError` for a body
that is not valid JSON. -/
inductive HttpBody where
  | jsonBody (v : Value)
  | invalid
  deriving Repr

/-- Outcome of one transport invocation: `requests.ConnectionError`, or a
response with a status code and a body. -/
inductive TransportResult where
  | connErr
  | resp (status : Nat) (body : HttpBody)
  deriving Repr

/-- The configuration collaborator `__salt__['config.option']('hipchat')`:
either the lookup itself fails (raising one of the caught
`NameError/KeyError/AttributeError` — the module is not configured), or it
returns an options mapping with optional string entries. -/
inductive Config where
  | absent
  | present (api_key : Option String) (api_version : Option String)

/-- Result of a call into the module: the value returned (or exception
raised), the HTTP requests attempted, and the contents of the caller-passed
`data` dict after the call (`none` when the caller passed no dict; the code
mutates the caller's dict through the shared reference in the v1 branch). -/
structure Outcome where
  result : Except PyExc Value
  sent : List Request
  callerData : Option (List (String × Value))
  deriving Repr

/-- The static `hipchat_functions` dispatch table (lines 58-87); the v2
`message` path is interpolated with the already-computed `room_id`. -/
def hipchat_functions (room_id : String) :
    List (String × List (String × (String × Option String))) :=
  [("v1", [("rooms", ("rooms/list", some "rooms")),
           ("users", ("users/list", some "users")),
           ("message", ("rooms/message", some "status"))]),
   ("v2", [("rooms", ("room", some "items")),
           ("users", ("user", some "items")),
           ("message", ("room/" ++ room_id ++ "/notification", none))])]

/-- Response interpretation (lines 136-149). On 200 the body is parsed
(`ValueError` when invalid) and `parsed.get(envelope)` is returned — `.get`
on a non-dict raises `AttributeError`, and a `None` envelope key is never
present among string keys, so it yields `None`. 204 returns `True`. Any
other status re-parses the body to look for an `error` field before
returning `False` — so an invalid body raises `ValueError` there too. -/
def interpretResponse (envelope : Option String) : TransportResult → Except PyExc Value
  | .connErr => .ok (.bool false)
  | .resp status body =>
    if status = 200 then
      match body with
      | .invalid => .error .valueError
      | .jsonBody v =>
        match v with
        | .obj kvs =>
          match envelope with
          | some k => .ok ((dget kvs k).getD .null)
          | none => .ok .null
        | _ => .error .attributeError
    else if status = 204 then
      .ok (.bool true)
    else
      match body with
      | .invalid => .error .valueError
      | .jsonBody v =>
        match v with
        | .obj _ => .ok (.bool false)
        | _ => .error .attributeError

/-- `_query` (lines 36-149). Follows the source's control flow statement by
statement; each early `return`/raise carries the request trace so far and the
caller-visible state of the `data` dict. -/
def _query (function : String) (api_key api_version : Option String)
    (method : String) (data : Option (List (String × Value)))
    (config : Config) (transport : Request → TransportResult) : Outcome :=
  -- lines 50-51: `if data is None: data = {}`
  let data0 : List (String × Value) := data.getD []
  -- lines 53-56: room_id from truthy `data.get('room_id')`, else '0'
  let room_id : String :=
    match dget data0 "room_id" with
    | some v => if v.truthy then v.pyStr else "0"
    | none => "0"
  -- lines 89-98: credential resolution; a failing lookup is caught → False
  let resolved : Option (Option String × Option String) :=
    if !optTruthy api_key || !optTruthy api_version then
      match config with
      | .absent => none
      | .present okey over =>
          some (if optTruthy api_key then api_key else okey,
                if optTruthy api_version then api_version else over)
    else some (api_key, api_version)
  match resolved with
  | none => ⟨.ok (.bool false), [], data⟩
  | some (api_key, api_version) =>
    -- line 101: `api_version + '/'` raises TypeError when api_version is None
    match api_version with
    | none => ⟨.error .typeError, [], data⟩
    | some ver =>
      let base_url := url_join "https://api.hipchat.com" (ver ++ "/")
      -- line 102: chained .get; a miss at either level raises AttributeError
      match dget (hipchat_functions room_id) ver with
      | none => ⟨.error .attributeError, [], data⟩
      | some perVersion =>
        match dget perVersion function with
        | none => ⟨.error .attributeError, [], data⟩
        | some entry =>
          let url := url_join base_url entry.1
          let envelope := entry.2
          if ver = "v1" then
            -- lines 105-115
            let query_params : List (String × Option String) :=
              [("format", some "json"), ("auth_token", api_key)]
            let headers : List (String × String) :=
              if method = "POST" then
                [("Content-Type", "application/x-www-form-urlencoded")]
              else []
            let data1 := dset data0 "notify"
              (if getTruthy data0 "notify" then .int 1 else .int 0)
            let req : Request := ⟨method, url, headers, query_params, .form data1⟩
            ⟨interpretResponse envelope (transport req), [req],
             match data with | some _ => some data1 | none => none⟩
          else if ver = "v2" then
            -- lines 116-118: `data = json.dumps(data)` rebinds, no mutation
            let headers : List (String × String) :=
              [("Authorization", "Bearer " ++ optStr api_key)]
            let req : Request := ⟨method, url, headers, [], .raw (jsonDumps data0)⟩
            ⟨interpretResponse envelope (transport req), [req], data⟩
          else
            -- lines 119-121: unreachable, the line-102 lookup raised first
            ⟨.ok (.bool false), [], data⟩

/-- `list_rooms` (lines 152-168). -/
def list_rooms (api_key api_version : Option String)
    (config : Config) (transport : Request → TransportResult) : Outcome :=
  _query "rooms" api_key api_version "GET" none config transport

/-- `list_users` (lines 171-186). -/
def list_users (api_key api_version : Option String)
    (config : Config) (transport : Request → TransportResult) : Outcome :=
  _query "users" api_key api_version "GET" none config transport

/-- The `for x in range(0, len(xs)): if xs[x]['name'] == name: return xs[x]`
scan shared by `find_room`/`find_user`. An element that is not a dict or
lacks the `'name'` key raises before later elements are inspected. -/
def findByName (name : String) : List Value → Except PyExc (Option Value)
  | [] => .ok none
  | v :: rest =>
    match v with
    | .obj kvs =>
      match dget kvs "name" with
      | some (.str s) => if s = name then .ok (some (.obj kvs)) else findByName name rest
      | some _ => findByName name rest
      | none => .error .keyError
    | _ => .error .typeError

/-- The `if xs: scan; return False` tail shared by `find_room`/`find_user`.
A truthy non-list result makes `len`/indexing raise. -/
def findResult (name : String) (q : Outcome) : Outcome :=
  match q.result with
  | .error e => { q with result := .error e }
  | .ok v =>
    if v.truthy then
      match v with
      | .arr xs =>
        match findByName name xs with
        | .error e => { q with result := .error e }
        | .ok (some r) => { q with result := .ok r }
        | .ok none => { q with result := .ok (.bool false) }
      | _ => { q with result := .error .typeError }
    else { q with result := .ok (.bool false) }

/-- `find_room` (lines 189-210). -/
def find_room (name : String) (api_key api_version : Option String)
    (config : Config) (transport : Request → TransportResult) : Outcome :=
  findResult name (list_rooms api_key api_version config transport)

/-- `find_user` (lines 213-234). -/
def find_user (name : String) (api_key api_version : Option String)
    (config : Config) (transport : Request → TransportResult) : Outcome :=
  findResult name (list_users api_key api_version config transport)

/-- `send_message` (lines 237-281): builds the parameters dict (truncating
`from_name` to 15 and `message` to 10000 characters), POSTs it, and collapses
the result to a boolean by truthiness. -/
def send_message (room_id : Value) (message from_name : String)
    (api_key api_version : Option String) (color : String) (notify : Bool)
    (config : Config) (transport : Request → TransportResult) : Outcome :=
  let parameters : List (String × Value) :=
    [("room_id", room_id),
     ("from", .str (from_name.take 15)),
     ("message", .str (message.take 10000)),
     ("message_format", .str "text"),
     ("color", .str color),
     ("notify", .bool notify)]
  let q := _query "message" api_key api_version "POST" (some parameters) config transport
  match q.result with
  | .error e => { q with result := .error e }
  | .ok v => { q with result := .ok (.bool v.truthy) }

/-- Every element of the list is a dict carrying a `'name'` key — the shape
under which the `find_*` scan runs to completion without raising. -/
def wellNamed : List Value → Bool
  | [] => true
  | .obj kvs :: rest => (dget kvs "name").isSome && wellNamed rest
  | _ => false

/-- The predicate of the claimed `find_*` behaviour: the element is a record
whose `'name'` field is exactly (case-sensitively) the searched string. -/
def nameMatches (v : Value) (name : String) : Bool :=
  match v with
  | .obj kvs =>
    match dget kvs "name" with
    | some (.str s) => s == name
    | _ => false
  | _ => false

/-- On well-shaped lists the source's index loop returns precisely the first
element (in list order) whose `'name'` field equals the searched string. -/
theorem findByName_eq_find (name : String) (xs : List Value)
    (h : wellNamed xs = true) :
    findByName name xs = .ok (xs.find? (fun v => nameMatches v name)) := by
  induction xs with
  | nil => rfl
  | cons v rest ih =>
    cases v with
    | obj kvs =>
      simp only [wellNamed, Bool.and_eq_true] at h
      obtain ⟨h1, h2⟩ := h
      cases hn : dget kvs "name" with
      | none => rw [hn] at h1; simp at h1
      | some nv =>
        cases nv with
        | str s =>
          by_cases hs : s = name
          · subst hs; simp [findByName, hn, List.find?, nameMatches]
          · have hb : (s == name) = false := by simp [hs]
            simp [findByName, hn, hs, hb, List.find?, nameMatches, ih h2]
        | null => simp [findByName, hn, List.find?, nameMatches, ih h2]
        | bool b => simp [findByName, hn, List.find?, nameMatches, ih h2]
        | int n => simp [findByName, hn, List.find?, nameMatches, ih h2]
        | arr ys => simp [findByName, hn, List.find?, nameMatches, ih h2]
        | obj kvs2 => simp [findByName, hn, List.find?, nameMatches, ih h2]
    | null => simp [wellNamed] at h
    | bool b => simp [wellNamed] at h
    | int n => simp [wellNamed] at h
    | str s => simp [wellNamed] at h
    | arr ys => simp [wellNamed] at h

/-- The shared `if xs: scan; return False` tail computes the first-match
semantics when the operation produced a well-shaped list. -/
theorem findResult_scan (name : String) (q : Outcome) (xs : List Value)
    (hq : q.result = .ok (.arr xs)) (h : wellNamed xs = true) :
    (findResult name q).result =
      .ok ((xs.find? (fun v => nameMatches v name)).getD (.bool false)) := by
  obtain ⟨res, sent, cd⟩ := q
  simp only at hq
  subst hq
  cases xs with
  | nil => simp [findResult, Value.truthy]
  | cons v rest =>
    simp only [findResult, Value.truthy, List.isEmpty_cons, Bool.not_false, if_true,
               findByName_eq_find name (v :: rest) h]
    cases hfind : (v :: rest).find? (fun w => nameMatches w name) <;> simp [hfind]

/-- C2 (code bug): for every api_version outside \x7bv1, v2\x7d (and any
function, method, data and transport), `_query` raises `AttributeError` at
the `hipchat_functions.get(api_version).get(function)` lookup — which runs
before the version dispatch, so the `UnsupportedVersion` return-False branch
(lines 119-121) is unreachable — and the transport is invoked zero times. -/
theorem C2_unsupported_version_raises (v k f m : String)
    (d : Option (List (String × Value))) (t : Request → TransportResult)
    (hv1 : v ≠ "v1") (hv2 : v ≠ "v2") (hv : v ≠ "") (hk : k ≠ "") :
    (_query f (some k) (some v) m d .absent t).result = .error .attributeError ∧
    (_query f (some k) (some v) m d .absent t).sent = [] := by
  unfold _query
  simp [optTruthy, hipchat_functions, dget, hv1, hv2, hv, hk, Ne.symm hv1, Ne.symm hv2]

/-- C2 witness: at api_version `'v3'` the list_rooms query raises
`AttributeError` (it does not return `False`) and sends nothing. -/
theorem C2_witness :
    (_query "rooms" (some "k") (some "v3") "GET" none .absent (fun _ => .connErr)).result
      = .error .attributeError ∧
    (_query "rooms" (some "k") (some "v3") "GET" none .absent (fun _ => .connErr)).sent = [] :=
  C2_unsupported_version_raises "v3" "k" "rooms" "GET" none (fun _ => .connErr)
    (by decide) (by decide) (by decide) (by decide)

/-- C3 (amended): when neither credential is passed explicitly, an absent
configuration collaborator (the lookup itself fails) yields the uniform
`False` with no network call; but a present collaborator missing both keys
is NOT treated identically — `api_version + '/'` raises `TypeError` — and a
present collaborator with an api_version but no api_key attempts the
network call anyway. -/
theorem C3_missing_credential (f m : String) (d : Option (List (String × Value)))
    (t : Request → TransportResult)
    (hf : f = "rooms" ∨ f = "users" ∨ f = "message") :
    ((_query f none none m d .absent t).result = .ok (.bool false) ∧
     (_query f none none m d .absent t).sent = []) ∧
    ((_query f none none m d (.present none none) t).result = .error .typeError ∧
     (_query f none none m d (.present none none) t).sent = []) ∧
    (_query f none none m d (.present none (some "v1")) t).sent.length = 1 := by
  obtain hf | hf | hf := hf <;> subst hf <;> exact ⟨⟨rfl, rfl⟩, ⟨rfl, rfl⟩, rfl⟩

/-- C3 counterexample: with no explicit credentials and a present resolver
that yields neither key, `_query` raises `TypeError` instead of returning
the claimed uniform `False`. -/
theorem C3_counterexample :
    (_query "rooms" none none "GET" none (.present none none) (fun _ => .connErr)).result
      = .error .typeError := rfl

/-- C3 witness: the amended statement at function `'rooms'`. -/
theorem C3_witness :
    (((_query "rooms" none none "GET" none .absent (fun _ => .connErr)).result
        = .ok (.bool false) ∧
      (_query "rooms" none none "GET" none .absent (fun _ => .connErr)).sent = []) ∧
     ((_query "rooms" none none "GET" none (.present none none) (fun _ => .connErr)).result
        = .error .typeError ∧
      (_query "rooms" none none "GET" none (.present none none) (fun _ => .connErr)).sent = []) ∧
     (_query "rooms" none none "GET" none (.present none (some "v1"))
        (fun _ => .connErr)).sent.length = 1) :=
  C3_missing_credential "rooms" "GET" none (fun _ => .connErr) (Or.inl rfl)

/-- C4 (amended): on a status that is neither 200 nor 204, a body that is
not valid JSON makes `_query` raise the decode error (`ValueError` from
`result.json()` at line 147) to the caller, while a JSON-object body is
absorbed into the uniform `False`. -/
theorem C4_error_path_decode (s : Nat) (kvs : List (String × Value))
    (h200 : s ≠ 200) (h204 : s ≠ 204) :
    (_query "rooms" (some "k") (some "v1") "GET" none .absent
       (fun _ => .resp s .invalid)).result = .error .valueError ∧
    (_query "rooms" (some "k") (some "v1") "GET" none .absent
       (fun _ => .resp s (.jsonBody (.obj kvs)))).result = .ok (.bool false) := by
  refine ⟨?_, ?_⟩ <;>
    simp [_query, optTruthy, hipchat_functions, dget, interpretResponse, h200, h204]

/-- C4 counterexample: a 500 response with a non-JSON body makes the
response interpreter raise `ValueError` — it does not return the uniform
failure result as claimed. -/
theorem C4_counterexample :
    (_query "rooms" (some "k") (some "v1") "GET" none .absent
       (fun _ => .resp 500 .invalid)).result = .error .valueError := rfl

/-- C4 witness: the amended statement at status 403. -/
theorem C4_witness :
    (_query "rooms" (some "k") (some "v1") "GET" none .absent
       (fun _ => .resp 403 .invalid)).result = .error .valueError ∧
    (_query "rooms" (some "k") (some "v1") "GET" none .absent
       (fun _ => .resp 403 (.jsonBody (.obj [("error", .str "bad token")])))).result
      = .ok (.bool false) :=
  C4_error_path_decode 403 [("error", .str "bad token")] (by decide) (by decide)

/-- C5 (amended): a 204 status is unconditional success (`True`) for every
operation and version with no payload extraction (even an invalid body is
never parsed); but for a 200 on the v2 `message` operation the body IS
parsed and the `None` envelope key looked up, yielding `None` — so
`send_message` reports failure on a 200, and a malformed 200 body raises
`ValueError`. -/
theorem C5_status_semantics (f ver m : String) (d : Option (List (String × Value)))
    (kvs : List (String × Value)) (body : HttpBody)
    (hv : ver = "v1" ∨ ver = "v2")
    (hf : f = "rooms" ∨ f = "users" ∨ f = "message") :
    (_query f (some "k") (some ver) m d .absent
       (fun _ => .resp 204 body)).result = .ok (.bool true) ∧
    (_query "message" (some "k") (some "v2") m d .absent
       (fun _ => .resp 200 (.jsonBody (.obj kvs)))).result = .ok .null ∧
    (send_message (.str "1") "msg" "from" (some "k") (some "v2") "yellow" false .absent
       (fun _ => .resp 200 (.jsonBody (.obj kvs)))).result = .ok (.bool false) ∧
    (send_message (.str "1") "msg" "from" (some "k") (some "v2") "yellow" false .absent
       (fun _ => .resp 200 .invalid)).result = .error .valueError := by
  obtain hv | hv := hv <;> obtain hf | hf | hf := hf <;> subst hv hf <;>
    refine ⟨?_, rfl, rfl, rfl⟩ <;>
    simp [_query, optTruthy, hipchat_functions, dget, interpretResponse]

/-- C5 counterexample: a 200 response to the v2 `message` operation does not
signal success by status alone — `send_message` returns `False` on it,
because `_query` extracts the `None` envelope key and gets `None`. -/
theorem C5_counterexample :
    (send_message (.str "1") "hi" "me" (some "k") (some "v2") "yellow" false .absent
       (fun _ => .resp 200 (.jsonBody (.obj [])))).result = .ok (.bool false) := rfl

/-- C5 witness: the amended statement at `message`/v2 with an invalid 204
body and an empty 200 object body. -/
theorem C5_witness :
    (_query "message" (some "k") (some "v2") "POST" none .absent
       (fun _ => .resp 204 .invalid)).result = .ok (.bool true) ∧
    (_query "message" (some "k") (some "v2") "POST" none .absent
       (fun _ => .resp 200 (.jsonBody (.obj [])))).result = .ok .null ∧
    (send_message (.str "1") "msg" "from" (some "k") (some "v2") "yellow" false .absent
       (fun _ => .resp 200 (.jsonBody (.obj [])))).result = .ok (.bool false) ∧
    (send_message (.str "1") "msg" "from" (some "k") (some "v2") "yellow" false .absent
       (fun _ => .resp 200 .invalid)).result = .error .valueError :=
  C5_status_semantics "message" "v2" "POST" none [] .invalid
    (Or.inr rfl) (Or.inr (Or.inr rfl))

/-- The boolean-collapsing tail of `send_message` does not change which
request was sent: its trace equals the underlying `_query` trace. -/
theorem send_message_sent_eq (room_id : Value) (message from_name : String)
    (k v : Option String) (color : String) (notify : Bool) (cfg : Config)
    (t : Request → TransportResult) :
    (send_message room_id message from_name k v color notify cfg t).sent =
      (_query "message" k v "POST"
        (some [("room_id", room_id),
               ("from", .str (from_name.take 15)),
               ("message", .str (message.take 10000)),
               ("message_format", .str "text"),
               ("color", .str color),
               ("notify", .bool notify)]) cfg t).sent := by
  unfold send_message
  cases hq : (_query "message" k v "POST"
      (some [("room_id", room_id),
             ("from", .str (from_name.take 15)),
             ("message", .str (message.take 10000)),
             ("message_format", .str "text"),
             ("color", .str color),
             ("notify", .bool notify)]) cfg t).result <;>
    simp [hq]

/-- C1 (amended): only some internal failure kinds are absorbed into the
uniform negative result: a `ConnectionError` from the transport, a
non-200/204 status with a JSON-object body, a failing configuration lookup
with no explicit credentials (with zero transport invocations), and a
`find_*` miss all yield `False`; but `UnsupportedVersion`, malformed JSON
(both paths) and a present resolver yielding no version re-raise exceptions
(see the counterexample and C2/C3/C4). -/
theorem C1_absorbed_failures (f ver m name : String) (d : Option (List (String × Value)))
    (kvs : List (String × Value)) (s : Nat) (t : Request → TransportResult)
    (hv : ver = "v1" ∨ ver = "v2")
    (hf : f = "rooms" ∨ f = "users" ∨ f = "message")
    (h200 : s ≠ 200) (h204 : s ≠ 204) :
    (_query f (some "k") (some ver) m d .absent (fun _ => .connErr)).result
      = .ok (.bool false) ∧
    (_query f (some "k") (some ver) m d .absent
       (fun _ => .resp s (.jsonBody (.obj kvs)))).result = .ok (.bool false) ∧
    (_query f none none m d .absent t).result = .ok (.bool false) ∧
    (_query f none none m d .absent t).sent = [] ∧
    (find_room name (some "k") (some "v1") .absent
       (fun _ => .resp 200 (.jsonBody (.obj [("rooms", .arr [])])))).result
      = .ok (.bool false) ∧
    (find_user name (some "k") (some "v1") .absent
       (fun _ => .resp 200 (.jsonBody (.obj [("users", .arr [])])))).result
      = .ok (.bool false) ∧
    (send_message (.str "1") name name (some "k") (some ver) "yellow" false .absent
       (fun _ => .connErr)).result = .ok (.bool false) := by
  obtain hv | hv := hv <;> obtain hf | hf | hf := hf <;> subst hv hf <;>
    refine ⟨rfl, ?_, rfl, rfl, rfl, rfl, rfl⟩ <;>
    simp [_query, optTruthy, hipchat_functions, dget, interpretResponse, h200, h204]

/-- C1 counterexample: not every failure kind is absorbed — a 200 response
whose body is not valid JSON makes `list_rooms` re-raise the decode error
(`ValueError`) to the caller instead of returning a uniform negative
result. -/
theorem C1_counterexample :
    (list_rooms (some "k") (some "v2") .absent (fun _ => .resp 200 .invalid)).result
      = .error .valueError := rfl

/-- C1 witness: the amended statement at `rooms`/v1/status 500. -/
theorem C1_witness :
    (_query "rooms" (some "k") (some "v1") "GET" none .absent
       (fun _ => .connErr)).result = .ok (.bool false) ∧
    (_query "rooms" (some "k") (some "v1") "GET" none .absent
       (fun _ => .resp 500 (.jsonBody (.obj [("error", .str "x")])))).result
      = .ok (.bool false) ∧
    (_query "rooms" none none "GET" none .absent (fun _ => .connErr)).result
      = .ok (.bool false) ∧
    (_query "rooms" none none "GET" none .absent (fun _ => .connErr)).sent = [] ∧
    (find_room "Dev" (some "k") (some "v1") .absent
       (fun _ => .resp 200 (.jsonBody (.obj [("rooms", .arr [])])))).result
      = .ok (.bool false) ∧
    (find_user "Dev" (some "k") (some "v1") .absent
       (fun _ => .resp 200 (.jsonBody (.obj [("users", .arr [])])))).result
      = .ok (.bool false) ∧
    (send_message (.str "1") "Dev" "Dev" (some "k") (some "v1") "yellow" false .absent
       (fun _ => .connErr)).result = .ok (.bool false) :=
  C1_absorbed_failures "rooms" "v1" "GET" "Dev" none [("error", .str "x")] 500
    (fun _ => .connErr) (Or.inl rfl) (Or.inl rfl) (by decide) (by decide)

/-- C6 (confirmed): for every `from_name` and `message`, `send_message`
builds the request body from `from_name` truncated to 15 characters and
`message` truncated to 10000 characters (visible in the captured v1 form
body and the v2 JSON body), and the truncation is silent: the whole outcome
depends only on the truncated fields, so no error is reported and the
return value does not reflect it. -/
theorem C6_truncation (room_id : Value) (message from_name color : String)
    (notify : Bool) (t : Request → TransportResult) :
    (send_message room_id message from_name (some "k") (some "v1") color notify
        .absent t).sent =
      [⟨"POST", "https://api.hipchat.com/v1/rooms/message",
        [("Content-Type", "application/x-www-form-urlencoded")],
        [("format", some "json"), ("auth_token", some "k")],
        .form [("room_id", room_id),
               ("from", .str (from_name.take 15)),
               ("message", .str (message.take 10000)),
               ("message_format", .str "text"),
               ("color", .str color),
               ("notify", .int (if notify then 1 else 0))]⟩] ∧
    (send_message room_id message from_name (some "k") (some "v2") color notify
        .absent t).sent.map (fun r => r.body) =
      [.raw (jsonDumps [("room_id", room_id),
                        ("from", .str (from_name.take 15)),
                        ("message", .str (message.take 10000)),
                        ("message_format", .str "text"),
                        ("color", .str color),
                        ("notify", .bool notify)])] ∧
    ∀ (message' from_name' : String) (ver : Option String) (cfg : Config),
      message.take 10000 = message'.take 10000 →
      from_name.take 15 = from_name'.take 15 →
      send_message room_id message from_name (some "k") ver color notify cfg t =
      send_message room_id message' from_name' (some "k") ver color notify cfg t := by
  refine ⟨?_, ?_, ?_⟩
  · rw [send_message_sent_eq]
    cases notify <;> rfl
  · rw [send_message_sent_eq]
    rfl
  · intro message' from_name' ver cfg h1 h2
    simp only [send_message, h1, h2]

/-- C6 witness: a 30-character `from_name` and its 15-character prefix give
byte-identical outcomes. -/
theorem C6_witness :
    send_message (.str "1") "msg" "abcdefghijklmnopqrstuvwxyz1234" (some "k")
        (some "v1") "yellow" false .absent (fun _ => .connErr) =
      send_message (.str "1") "msg" "abcdefghijklmno" (some "k")
        (some "v1") "yellow" false .absent (fun _ => .connErr) :=
  (C6_truncation (.str "1") "msg" "abcdefghijklmnopqrstuvwxyz1234" "yellow" false
      (fun _ => .connErr)).2.2 "msg" "abcdefghijklmno" (some "v1") .absent rfl (by decide)

/-- C7 (confirmed): for every boolean `notify`, the v1 outgoing form body
carries `notify` as the integer 1 (for `True`) or 0 (for `False`), while the
v2 outgoing JSON body carries the literal JSON boolean `true`/`false`. -/
theorem C7_notify_serialization (b : Bool) :
    (send_message (.str "1") "m" "f" (some "k") (some "v1") "yellow" b .absent
        (fun _ => .connErr)).sent.map (fun r => r.body) =
      [.form [("room_id", .str "1"), ("from", .str "f"), ("message", .str "m"),
              ("message_format", .str "text"), ("color", .str "yellow"),
              ("notify", .int (if b then 1 else 0))]] ∧
    (send_message (.str "1") "m" "f" (some "k") (some "v2") "yellow" b .absent
        (fun _ => .connErr)).sent.map (fun r => r.body) =
      [.raw ("\x7b\"room_id\": \"1\", \"from\": \"f\", \"message\": \"m\", \"message_format\": \"text\", \"color\": \"yellow\", \"notify\": "
              ++ (if b then "true" else "false") ++ "\x7d")] := by
  have hf : ("f" : String).take 15 = "f" := by rw [String.take_eq]; rfl
  have hm : ("m" : String).take 10000 = "m" := by rw [String.take_eq]; rfl
  cases b <;> refine ⟨?_, ?_⟩ <;> rw [send_message_sent_eq, hf, hm]
  · rfl
  · exact congrArg (fun s => [RequestBody.raw s]) (by decide)
  · rfl
  · exact congrArg (fun s => [RequestBody.raw s]) (by decide)

/-- C8 (confirmed): over any room/user list the service returns (well-shaped:
each element a record with a `'name'` field), `find_room`/`find_user` return
the FIRST element in returned order whose `'name'` equals the searched name
exactly (`List.find?` with exact string equality — no case-folding, no
dedup), and `False` (NotFound) when no element matches. -/
theorem C8_find_first_exact_match (name : String) (rooms users : List Value)
    (hr : wellNamed rooms = true) (hu : wellNamed users = true) :
    (find_room name (some "k") (some "v1") .absent
       (fun _ => .resp 200 (.jsonBody (.obj [("rooms", .arr rooms)])))).result =
      .ok ((rooms.find? (fun v => nameMatches v name)).getD (.bool false)) ∧
    (find_user name (some "k") (some "v1") .absent
       (fun _ => .resp 200 (.jsonBody (.obj [("users", .arr users)])))).result =
      .ok ((users.find? (fun v => nameMatches v name)).getD (.bool false)) :=
  ⟨findResult_scan name _ rooms rfl hr, findResult_scan name _ users rfl hu⟩

/-- C8 witness: on body `\x7b"rooms": [\x7b"name": "Dev"\x7d, \x7b"name": "Ops"\x7d]\x7d`,
`find_room "Dev"` returns the first element and `find_room "QA"` returns
`False`. -/
theorem C8_witness :
    wellNamed [.obj [("name", .str "Dev")], .obj [("name", .str "Ops")]] = true ∧
    (find_room "Dev" (some "k") (some "v1") .absent
       (fun _ => .resp 200 (.jsonBody (.obj [("rooms",
          .arr [.obj [("name", .str "Dev")], .obj [("name", .str "Ops")]])])))).result =
      .ok (.obj [("name", .str "Dev")]) ∧
    (find_room "QA" (some "k") (some "v1") .absent
       (fun _ => .resp 200 (.jsonBody (.obj [("rooms",
          .arr [.obj [("name", .str "Dev")], .obj [("name", .str "Ops")]])])))).result =
      .ok (.bool false) :=
  ⟨rfl,
   (C8_find_first_exact_match "Dev"
      [.obj [("name", .str "Dev")], .obj [("name", .str "Ops")]] [] rfl rfl).1,
   (C8_find_first_exact_match "QA"
      [.obj [("name", .str "Dev")], .obj [("name", .str "Ops")]] [] rfl rfl).1⟩

/-- C9 (confirmed): whenever `data.get('room_id')` is falsy — not only
absent but also `0`, the empty string, `False` or `None` — the v2 message
path is built with the default `'0'`:
`room/0/notification`. -/
theorem C9_falsy_room_id (rid : Value) (d : List (String × Value)) (m : String)
    (t : Request → TransportResult)
    (hd : dget d "room_id" = some rid) (hfalsy : rid.truthy = false) :
    (_query "message" (some "k") (some "v2") m (some d) .absent t).sent.map
        (fun r => r.url) =
      ["https://api.hipchat.com/v2/room/0/notification"] := by
  unfold _query
  simp only [Option.getD, hd, hfalsy]
  rfl

/-- C9 witness: all four falsy room_id shapes (`0`, `''`, `False`, `None`)
produce the `room/0/notification` path. -/
theorem C9_witness :
    ((_query "message" (some "k") (some "v2") "POST" (some [("room_id", .int 0)])
        .absent (fun _ => .connErr)).sent.map (fun r => r.url) =
      ["https://api.hipchat.com/v2/room/0/notification"]) ∧
    ((_query "message" (some "k") (some "v2") "POST" (some [("room_id", .str "")])
        .absent (fun _ => .connErr)).sent.map (fun r => r.url) =
      ["https://api.hipchat.com/v2/room/0/notification"]) ∧
    ((_query "message" (some "k") (some "v2") "POST" (some [("room_id", .bool false)])
        .absent (fun _ => .connErr)).sent.map (fun r => r.url) =
      ["https://api.hipchat.com/v2/room/0/notification"]) ∧
    ((_query "message" (some "k") (some "v2") "POST" (some [("room_id", .null)])
        .absent (fun _ => .connErr)).sent.map (fun r => r.url) =
      ["https://api.hipchat.com/v2/room/0/notification"]) :=
  ⟨C9_falsy_room_id (.int 0) [("room_id", .int 0)] "POST" (fun _ => .connErr) rfl rfl,
   C9_falsy_room_id (.str "") [("room_id", .str "")] "POST" (fun _ => .connErr) rfl rfl,
   C9_falsy_room_id (.bool false) [("room_id", .bool false)] "POST" (fun _ => .connErr) rfl rfl,
   C9_falsy_room_id .null [("room_id", .null)] "POST" (fun _ => .connErr) rfl rfl⟩

/-- C10 (confirmed): under v1 `_query` unconditionally writes a `notify`
entry (1 or 0) into the data mapping before sending — the captured body of
every v1 request carries it, the caller-passed mapping is left mutated with
it, and the no-data GET `list_rooms`/`list_users` requests carry a body of
exactly `notify=0`. -/
theorem C10_v1_notify_injection (f m : String) (d : List (String × Value))
    (t : Request → TransportResult)
    (hf : f = "rooms" ∨ f = "users" ∨ f = "message") :
    (_query f (some "k") (some "v1") m (some d) .absent t).sent.map (fun r => r.body) =
      [.form (dset d "notify" (if getTruthy d "notify" then .int 1 else .int 0))] ∧
    (_query f (some "k") (some "v1") m (some d) .absent t).callerData =
      some (dset d "notify" (if getTruthy d "notify" then .int 1 else .int 0)) ∧
    (list_rooms (some "k") (some "v1") .absent t).sent.map (fun r => r.body) =
      [.form [("notify", .int 0)]] ∧
    (list_users (some "k") (some "v1") .absent t).sent.map (fun r => r.body) =
      [.form [("notify", .int 0)]] := by
  obtain hf | hf | hf := hf <;> subst hf <;> exact ⟨rfl, rfl, rfl, rfl⟩

/-- C10 witness: a POST with caller data `\x7b'a': 'b'\x7d` sends body
`\x7b'a': 'b', 'notify': 0\x7d` and leaves the caller's mapping holding the
injected entry; the no-data GETs send `\x7b'notify': 0\x7d`. -/
theorem C10_witness :
    (_query "message" (some "k") (some "v1") "POST" (some [("a", .str "b")]) .absent
        (fun _ => .connErr)).sent.map (fun r => r.body) =
      [.form [("a", .str "b"), ("notify", .int 0)]] ∧
    (_query "message" (some "k") (some "v1") "POST" (some [("a", .str "b")]) .absent
        (fun _ => .connErr)).callerData =
      some [("a", .str "b"), ("notify", .int 0)] ∧
    (list_rooms (some "k") (some "v1") .absent (fun _ => .connErr)).sent.map
        (fun r => r.body) = [.form [("notify", .int 0)]] ∧
    (list_users (some "k") (some "v1") .absent (fun _ => .connErr)).sent.map
        (fun r => r.body) = [.form [("notify", .int 0)]] :=
  C10_v1_notify_injection "message" "POST" [("a", .str "b")] (fun _ => .connErr)
    (Or.inr (Or.inr rfl))

end Hipchat



